import Mathlib

set_option maxRecDepth 100000

/-!
Shallow embedding of src/src/interrupts/mod.rs of blog_os: construction of the
IDT, GDT and TSS singletons, the init sequence that loads them, and the five
exception handlers.  Machine integers (u64) are modelled as Nat with an
explicit bound U64 where overflow or bit-complement matters.  The sibling
modules idt.rs and gdt.rs are declared (mod idt; mod gdt;) but their sources
are not part of the reviewed tree; their builder operations are modelled from
the specification, as marked on each definition.
-/

namespace BlogOS

/-- The size bound of the Rust u64 type. -/
def U64 : Nat := 2 ^ 64

/-- const DOUBLE_FAULT_IST_INDEX: usize = 0; -/
def DOUBLE_FAULT_IST_INDEX : Nat := 0

/-- A stack returned by MemoryController::alloc_stack, identified by its top
address (the only field mod.rs reads). -/
structure Stack where
  top : Nat
  deriving Repr, DecidableEq

/-- TaskStateSegment from the x86 crate: the Interrupt Stack Table holds 7
stack-top pointers, zero-initialized by TaskStateSegment::new(). -/
structure TaskStateSegment where
  ist : List Nat
  deriving Repr, DecidableEq

/-- TaskStateSegment::new(): all seven IST slots zero. -/
def TaskStateSegment.new : TaskStateSegment :=
  ⟨List.replicate 7 0⟩

/-- Body of the TSS.call_once closure in init: zero-initialize, then store the
double-fault stack top in IST slot DOUBLE_FAULT_IST_INDEX. -/
def tss_closure (double_fault_stack : Stack) : TaskStateSegment :=
  { TaskStateSegment.new with
      ist := TaskStateSegment.new.ist.set DOUBLE_FAULT_IST_INDEX double_fault_stack.top }

/-- SegmentSelector from the x86 crate: (table index, requested privilege
level).  SegmentSelector::empty() is the null selector (index 0, rpl 0). -/
structure SegmentSelector where
  index : Nat
  rpl : Nat
  deriving Repr, DecidableEq

/-- SegmentSelector::empty(). -/
def SegmentSelector.empty : SegmentSelector :=
  ⟨0, 0⟩

/-- The two descriptor kinds mod.rs appends to the GDT. -/
inductive Descriptor where
  | kernel_code_segment
  | tss_segment (tss : TaskStateSegment)
  deriving Repr, DecidableEq

/-- Modelled from the spec: gdt.rs is not under src/.  A TSS descriptor
occupies two consecutive GDT slots; a code descriptor occupies one. -/
def Descriptor.slots : Descriptor → Nat
  | .kernel_code_segment => 1
  | .tss_segment _ => 2

/-- Modelled from the spec: gdt.rs is not under src/.  The GDT keeps the next
free slot index and the appended descriptors with their first slot index;
slot 0 is the mandatory null descriptor. -/
structure Gdt where
  next_slot : Nat
  entries : List (Nat × Descriptor)
  deriving Repr, DecidableEq

/-- Modelled from the spec: Gdt::new() holds only the null descriptor, so the
first free slot is 1. -/
def Gdt.new : Gdt :=
  ⟨1, []⟩

/-- Modelled from the spec: Gdt::add_entry appends one or two slots depending
on the descriptor kind and returns a selector addressing the first appended
slot, with requested privilege level 0. -/
def Gdt.add_entry (g : Gdt) (d : Descriptor) : Gdt × SegmentSelector :=
  (⟨g.next_slot + d.slots, g.entries ++ [(g.next_slot, d)]⟩, ⟨g.next_slot, 0⟩)

/-- The five handler entry points installed by the IDT static. -/
inductive HandlerId where
  | divide_by_zero
  | breakpoint
  | invalid_opcode
  | double_fault
  | page_fault
  deriving Repr, DecidableEq

/-- Which bind variant installed a gate: set_handler (no error code) or
set_handler_with_error_code. -/
inductive BindKind where
  | no_error_code
  | with_error_code
  deriving Repr, DecidableEq

/-- Modelled from the spec: idt.rs is not under src/.  A gate records whether
it is installed, the bound handler, the bind variant used, and the 3-bit
stack-switch field of its options word: 0 means no stack switch, a nonzero
value n references IST slot n - 1 (the hardware encoding forced by the spec
invariant that an installed gate with a stack switch has a nonzero index). -/
structure GateDescriptor where
  present : Bool
  handler : Option HandlerId
  bind_kind : Option BindKind
  stack_switch : Nat
  deriving Repr, DecidableEq

/-- A never-installed gate slot. -/
def GateDescriptor.missing : GateDescriptor :=
  ⟨false, none, none, 0⟩

/-- Modelled from the spec: idt.rs is not under src/.  256 gate slots. -/
structure Idt where
  entries : List GateDescriptor
  deriving Repr, DecidableEq

/-- Modelled from the spec: Idt::new() has 256 empty gate slots. -/
def Idt.new : Idt :=
  ⟨List.replicate 256 GateDescriptor.missing⟩

/-- Modelled from the spec: set_handler installs a gate for a vector that
pushes no error code; the stack-switch field stays 0. -/
def Idt.set_handler (idt : Idt) (v : Nat) (h : HandlerId) : Idt :=
  ⟨idt.entries.set v ⟨true, some h, some BindKind.no_error_code, 0⟩⟩

/-- Modelled from the spec: set_handler_with_error_code installs a gate for a
vector that pushes an error code; the stack-switch field stays 0 until
set_stack_index is called on the returned options handle. -/
def Idt.set_handler_with_error_code (idt : Idt) (v : Nat) (h : HandlerId) : Idt :=
  ⟨idt.entries.set v ⟨true, some h, some BindKind.with_error_code, 0⟩⟩

/-- Modelled from the spec: set_stack_index(i) forces the CPU to load the
stack pointer from IST slot i on entry; stored in the gate's 3-bit field as
i + 1 so that the installed value is nonzero (0 encodes no switch). -/
def Idt.set_stack_index (idt : Idt) (v : Nat) (i : Nat) : Idt :=
  ⟨idt.entries.set v
    { idt.entries.getD v GateDescriptor.missing with stack_switch := i + 1 }⟩

/-- The gate installed at vector v. -/
def Idt.gate (idt : Idt) (v : Nat) : GateDescriptor :=
  idt.entries.getD v GateDescriptor.missing

/-- The IDT built by the lazy_static block in mod.rs: vectors 0, 3, 6 via
set_handler; 8 and 14 via set_handler_with_error_code; the double-fault gate
additionally gets set_stack_index(DOUBLE_FAULT_IST_INDEX). -/
def builtIDT : Idt :=
  ((((Idt.new.set_handler 0 HandlerId.divide_by_zero).set_handler 3
      HandlerId.breakpoint).set_handler 6
      HandlerId.invalid_opcode).set_handler_with_error_code 8
      HandlerId.double_fault).set_stack_index 8 DOUBLE_FAULT_IST_INDEX
    |>.set_handler_with_error_code 14 HandlerId.page_fault

/-- bitflags: PROTECTION_VIOLATION = 1 << 0. -/
def PROTECTION_VIOLATION : Nat := 1 <<< 0

/-- bitflags: CAUSED_BY_WRITE = 1 << 1. -/
def CAUSED_BY_WRITE : Nat := 1 <<< 1

/-- bitflags: USER_MODE = 1 << 2. -/
def USER_MODE : Nat := 1 <<< 2

/-- bitflags: MALFORMED_TABLE = 1 << 3. -/
def MALFORMED_TABLE : Nat := 1 <<< 3

/-- bitflags: INSTRUCTION_FETCH = 1 << 4. -/
def INSTRUCTION_FETCH : Nat := 1 <<< 4

/-- The PageFaultErrorCode bitflags wrapper over a u64 word. -/
structure PageFaultErrorCode where
  bits : Nat
  deriving Repr, DecidableEq

/-- all().bits(): the union of the five defined flag bits. -/
def PageFaultErrorCode.all_bits : Nat :=
  PROTECTION_VIOLATION ||| CAUSED_BY_WRITE ||| USER_MODE ||| MALFORMED_TABLE |||
    INSTRUCTION_FETCH

/-- bitflags from_bits: Some(flags) iff no bit outside the defined flags is
set, i.e. bits & !all().bits() == 0 in u64 arithmetic (complement as xor with
the all-ones word U64 - 1). -/
def PageFaultErrorCode.from_bits (bits : Nat) : Option PageFaultErrorCode :=
  if bits &&& ((U64 - 1) ^^^ PageFaultErrorCode.all_bits) = 0 then
    some ⟨bits⟩
  else
    none

/-- bitflags contains: all bits of the given flag are set. -/
def PageFaultErrorCode.contains (c : PageFaultErrorCode) (flag : Nat) : Bool :=
  c.bits &&& flag == flag

/-- The Debug formatting of a bitflags value: the names of every contained
flag, in declaration order.  This is what the page-fault diagnostic prints
with the :? format. -/
def PageFaultErrorCode.debugFlags (c : PageFaultErrorCode) : List String :=
  (if c.contains PROTECTION_VIOLATION then ["PROTECTION_VIOLATION"] else []) ++
  (if c.contains CAUSED_BY_WRITE then ["CAUSED_BY_WRITE"] else []) ++
  (if c.contains USER_MODE then ["USER_MODE"] else []) ++
  (if c.contains MALFORMED_TABLE then ["MALFORMED_TABLE"] else []) ++
  (if c.contains INSTRUCTION_FETCH then ["INSTRUCTION_FETCH"] else [])

/-- The execution-context snapshot pushed by the CPU before handler entry. -/
structure ExceptionStackFrame where
  instruction_pointer : Nat
  code_segment : Nat
  cpu_flags : Nat
  stack_pointer : Nat
  stack_segment : Nat
  deriving Repr, DecidableEq

/-- The diagnostic each handler prints via println!. -/
inductive Diagnostic where
  | divide_by_zero (frame : ExceptionStackFrame)
  | breakpoint_at (ip : Nat) (frame : ExceptionStackFrame)
  | invalid_opcode_at (ip : Nat) (frame : ExceptionStackFrame)
  | page_fault (accessed_address : Nat) (error_code : PageFaultErrorCode)
      (frame : ExceptionStackFrame)
  | double_fault (frame : ExceptionStackFrame)
  deriving Repr, DecidableEq

/-- Observable behaviour of one handler invocation: print a diagnostic and
return to the interrupted context, print a diagnostic and spin in loop \x7b \x7d
forever, or panic before printing. -/
inductive HandlerResult where
  | resume (d : Diagnostic)
  | halt (d : Diagnostic)
  | panicked (msg : String)
  deriving Repr, DecidableEq

/-- Whether the invocation returns control to the interrupted context. -/
def HandlerResult.returns : HandlerResult → Bool
  | .resume _ => true
  | _ => false

/-- divide_by_zero_handler: print the frame, then loop forever. -/
def divide_by_zero_handler (stack_frame : ExceptionStackFrame) : HandlerResult :=
  HandlerResult.halt (Diagnostic.divide_by_zero stack_frame)

/-- breakpoint_handler: print the instruction pointer and the frame, then
return. -/
def breakpoint_handler (stack_frame : ExceptionStackFrame) : HandlerResult :=
  HandlerResult.resume
    (Diagnostic.breakpoint_at stack_frame.instruction_pointer stack_frame)

/-- invalid_opcode_handler: print the instruction pointer and the frame, then
loop forever. -/
def invalid_opcode_handler (stack_frame : ExceptionStackFrame) : HandlerResult :=
  HandlerResult.halt
    (Diagnostic.invalid_opcode_at stack_frame.instruction_pointer stack_frame)

/-- page_fault_handler: decode the error code with from_bits(..).unwrap() and
print cr2, the decoded flags and the frame, then loop forever; the unwrap
panics before anything is printed when from_bits yields None.  cr2 is the
value of the fault-address register, passed explicitly. -/
def page_fault_handler (stack_frame : ExceptionStackFrame) (error_code : Nat)
    (cr2 : Nat) : HandlerResult :=
  match PageFaultErrorCode.from_bits error_code with
  | some code => HandlerResult.halt (Diagnostic.page_fault cr2 code stack_frame)
  | none => HandlerResult.panicked "called Option::unwrap on a None value"

/-- double_fault_handler: print the frame (the error-code argument is bound
but never used), then loop forever. -/
def double_fault_handler (stack_frame : ExceptionStackFrame)
    (_error_code : Nat) : HandlerResult :=
  HandlerResult.halt (Diagnostic.double_fault stack_frame)

/-- The privileged register loads init performs, in program order. -/
inductive Event where
  | gdt_load
  | set_cs_reload
  | load_tr_op
  | idt_load
  deriving Repr, DecidableEq

/-- Global state of the module: the spin::Once cells for TSS and GDT, the
lazy_static flag for IDT, closure-run counters for each of the three
one-time constructions, the contents last loaded into each CPU register
(none = never loaded), and the trace of register-load events. -/
structure KernelState where
  tss_cell : Option TaskStateSegment
  gdt_cell : Option Gdt
  idt_built : Bool
  tss_builds : Nat
  gdt_builds : Nat
  idt_builds : Nat
  loaded_gdt : Option Gdt
  cs : Option SegmentSelector
  tr : Option SegmentSelector
  loaded_idt : Option Idt
  trace : List Event
  deriving Repr, DecidableEq

/-- State at entry to the boot sequence: nothing built, nothing loaded. -/
def KernelState.boot : KernelState :=
  ⟨none, none, false, 0, 0, 0, none, none, none, none, []⟩

/-- Outcome of one call to init: normal return, or a panic (from expect)
carrying the state at the moment the panic fired. -/
inductive InitResult where
  | ok (s : KernelState)
  | panic (msg : String) (s : KernelState)
  deriving Repr, DecidableEq

/-- The state when the call ended, whether normally or by panic. -/
def InitResult.finalState : InitResult → KernelState
  | .ok s => s
  | .panic _ s => s

/-- pub fn init(memory_controller: &mut MemoryController).  The allocator's
answer is passed as alloc_result (None models alloc_stack failing).  Each
call_once runs its closure only when the cell is empty; the GDT closure
assigns the two selectors, which otherwise keep SegmentSelector::empty();
then the four register loads run in program order. -/
def init (alloc_result : Option Stack) (s : KernelState) : InitResult :=
  match alloc_result with
  | none => InitResult.panic "could not allocate double fault stack" s
  | some double_fault_stack =>
    let tssPair : TaskStateSegment × KernelState :=
      match s.tss_cell with
      | some t => (t, s)
      | none =>
        let t := tss_closure double_fault_stack
        (t, { s with tss_cell := some t, tss_builds := s.tss_builds + 1 })
    let tss := tssPair.1
    let s1 := tssPair.2
    let gdtTuple : SegmentSelector × SegmentSelector × Gdt × KernelState :=
      match s1.gdt_cell with
      | some g => (SegmentSelector.empty, SegmentSelector.empty, g, s1)
      | none =>
        let p1 := Gdt.new.add_entry Descriptor.kernel_code_segment
        let p2 := p1.1.add_entry (Descriptor.tss_segment tss)
        (p1.2, p2.2, p2.1,
          { s1 with gdt_cell := some p2.1, gdt_builds := s1.gdt_builds + 1 })
    let code_selector := gdtTuple.1
    let tss_selector := gdtTuple.2.1
    let gdt := gdtTuple.2.2.1
    let s2 := gdtTuple.2.2.2
    let s3 := { s2 with loaded_gdt := some gdt, trace := s2.trace ++ [Event.gdt_load] }
    let s4 := { s3 with cs := some code_selector, trace := s3.trace ++ [Event.set_cs_reload] }
    let s5 := { s4 with tr := some tss_selector, trace := s4.trace ++ [Event.load_tr_op] }
    let s6 :=
      if s5.idt_built then
        { s5 with loaded_idt := some builtIDT, trace := s5.trace ++ [Event.idt_load] }
      else
        { s5 with idt_built := true, idt_builds := s5.idt_builds + 1,
                  loaded_idt := some builtIDT, trace := s5.trace ++ [Event.idt_load] }
    InitResult.ok s6

/-- The GDT as the first init call builds it: code descriptor at slot 1, TSS
descriptor at slots 2-3. -/
def firstGdt (stack : Stack) : Gdt :=
  ⟨4, [(1, Descriptor.kernel_code_segment),
       (2, Descriptor.tss_segment (tss_closure stack))]⟩

/-- The state after a successful first init call from boot. -/
def firstState (stack : Stack) : KernelState :=
  { tss_cell := some (tss_closure stack)
    gdt_cell := some (firstGdt stack)
    idt_built := true
    tss_builds := 1
    gdt_builds := 1
    idt_builds := 1
    loaded_gdt := some (firstGdt stack)
    cs := some ⟨1, 0⟩
    tr := some ⟨2, 0⟩
    loaded_idt := some builtIDT
    trace := [Event.gdt_load, Event.set_cs_reload, Event.load_tr_op, Event.idt_load] }

/-- The state after a second init call: the cells are untouched, the loads
repeat, but the selector reloads now use the null selector because the GDT
closure did not run again. -/
def secondState (stack : Stack) : KernelState :=
  { firstState stack with
    cs := some SegmentSelector.empty
    tr := some SegmentSelector.empty
    trace := [Event.gdt_load, Event.set_cs_reload, Event.load_tr_op, Event.idt_load,
              Event.gdt_load, Event.set_cs_reload, Event.load_tr_op, Event.idt_load] }

theorem init_boot_eq (stack : Stack) :
    init (some stack) KernelState.boot = InitResult.ok (firstState stack) := rfl

theorem init_second_eq (stack stack2 : Stack) :
    init (some stack2) (firstState stack) = InitResult.ok (secondState stack) := rfl

theorem from_bits_some_of_lt (e : Nat) (he : e < 32) :
    PageFaultErrorCode.from_bits e = some ⟨e⟩ := by
  have h : ∀ x, x < 32 → PageFaultErrorCode.from_bits x = some ⟨x⟩ := by decide
  exact h e he

theorem from_bits_none_of_high_bit (e : Nat) (he : e < U64)
    (hbit : ∃ i, 5 ≤ i ∧ e.testBit i = true) :
    PageFaultErrorCode.from_bits e = none := by
  obtain ⟨i, h5, hbi⟩ := hbit
  have hi64 : i < 64 := by
    by_contra hge
    push_neg at hge
    have hlt : e < 2 ^ i :=
      lt_of_lt_of_le he (Nat.pow_le_pow_right (by omega) hge)
    rw [Nat.testBit_lt_two_pow hlt] at hbi
    exact Bool.false_ne_true hbi
  have hmask : ((U64 - 1) ^^^ PageFaultErrorCode.all_bits).testBit i = true := by
    have h1 : (U64 - 1) = 2 ^ 64 - 1 := rfl
    have h2 : PageFaultErrorCode.all_bits = 2 ^ 5 - 1 := by decide
    have h3 : ¬ i < 5 := by omega
    rw [h1, h2, Nat.testBit_xor, Nat.testBit_two_pow_sub_one,
      Nat.testBit_two_pow_sub_one]
    simp [hi64, h3]
  have hand : (e &&& ((U64 - 1) ^^^ PageFaultErrorCode.all_bits)).testBit i = true := by
    rw [Nat.testBit_land, hbi, hmask]
    rfl
  have hne : e &&& ((U64 - 1) ^^^ PageFaultErrorCode.all_bits) ≠ 0 := by
    intro h0
    rw [h0] at hand
    simp at hand
  unfold PageFaultErrorCode.from_bits
  rw [if_neg hne]

/-- Claim C1: the installed double-fault gate's stack-switch field is nonzero
and references IST slot DOUBLE_FAULT_IST_INDEX, the slot the TSS closure
populates with the allocated double-fault stack's top address; every other
installed gate has stack-switch field 0. -/
theorem claim_C1 (stack : Stack) :
    (builtIDT.gate 8).stack_switch = DOUBLE_FAULT_IST_INDEX + 1 ∧
    (builtIDT.gate 8).stack_switch ≠ 0 ∧
    (tss_closure stack).ist.getD DOUBLE_FAULT_IST_INDEX 0 = stack.top ∧
    (∀ v < 256, v ≠ 8 → (builtIDT.gate v).present = true →
      (builtIDT.gate v).stack_switch = 0) :=
  ⟨by decide, by decide, rfl, by decide⟩

/-- Witness for C1 at vector 14 and a concrete stack. -/
theorem claim_C1_witness : (builtIDT.gate 14).stack_switch = 0 :=
  (claim_C1 ⟨4096⟩).2.2.2 14 (by decide) (by decide) (by decide)

/-- Claim C2: the built IDT has exactly vectors 0, 3, 6, 8, 14 populated and
no others; 0, 3, 6 via the no-error-code bind variant and 8, 14 via the
error-code bind variant. -/
theorem claim_C2 :
    (∀ v < 256, ((builtIDT.gate v).present = true ↔
      v = 0 ∨ v = 3 ∨ v = 6 ∨ v = 8 ∨ v = 14)) ∧
    (builtIDT.gate 0).bind_kind = some BindKind.no_error_code ∧
    (builtIDT.gate 3).bind_kind = some BindKind.no_error_code ∧
    (builtIDT.gate 6).bind_kind = some BindKind.no_error_code ∧
    (builtIDT.gate 8).bind_kind = some BindKind.with_error_code ∧
    (builtIDT.gate 14).bind_kind = some BindKind.with_error_code := by
  decide

/-- Witness for C2 at vector 8. -/
theorem claim_C2_witness : (builtIDT.gate 8).present = true :=
  (claim_C2.1 8 (by decide)).mpr (by decide)

/-- Claim C3: when the stack allocator reports failure, init panics with the
expect diagnostic before any descriptor-table register is loaded: the state
at the panic is exactly the entry state, so the trace and every loaded
register are untouched. -/
theorem claim_C3 (s : KernelState) :
    init none s = InitResult.panic "could not allocate double fault stack" s ∧
    (init none s).finalState.trace = s.trace ∧
    (init none s).finalState.loaded_gdt = s.loaded_gdt ∧
    (init none s).finalState.cs = s.cs ∧
    (init none s).finalState.tr = s.tr ∧
    (init none s).finalState.loaded_idt = s.loaded_idt :=
  ⟨rfl, rfl, rfl, rfl, rfl, rfl⟩

/-- Claim C4: every run of init that returns normally appends exactly the
events GDT load, code-segment reload, task-register load, IDT load, in that
order, to the trace: the GDT load precedes both selector reloads and the IDT
load is last. -/
theorem claim_C4 (s : KernelState) (stack : Stack) (t : KernelState)
    (h : init (some stack) s = InitResult.ok t) :
    t.trace = s.trace ++
      [Event.gdt_load, Event.set_cs_reload, Event.load_tr_op, Event.idt_load] := by
  cases hts : s.tss_cell <;> cases hg : s.gdt_cell <;>
    by_cases hib : s.idt_built = true <;>
    simp only [init, hts, hg, hib, Bool.not_eq_true, if_pos, if_neg,
      Bool.false_eq_true, if_false, if_true, InitResult.ok.injEq] at h <;>
    subst h <;>
    simp [List.append_assoc]

/-- Witness for C4: the first boot run from the boot state. -/
theorem claim_C4_witness :
    (firstState ⟨4096⟩).trace = KernelState.boot.trace ++
      [Event.gdt_load, Event.set_cs_reload, Event.load_tr_op, Event.idt_load] :=
  claim_C4 KernelState.boot ⟨4096⟩ (firstState ⟨4096⟩) rfl

/-- Claim C5: the decoder treats the error-code word as an independent set of
flags and reports every set flag: for every accepted code each of the five
flag names is reported exactly when its bit is set; 0b00001 reports exactly
protection-violation, 0b00011 reports protection-violation and
caused-by-write; and the handler emits those decodings. -/
theorem claim_C5 :
    (∀ e < 32,
      PageFaultErrorCode.from_bits e = some ⟨e⟩ ∧
      (("PROTECTION_VIOLATION" ∈ PageFaultErrorCode.debugFlags ⟨e⟩) ↔
        e.testBit 0 = true) ∧
      (("CAUSED_BY_WRITE" ∈ PageFaultErrorCode.debugFlags ⟨e⟩) ↔
        e.testBit 1 = true) ∧
      (("USER_MODE" ∈ PageFaultErrorCode.debugFlags ⟨e⟩) ↔
        e.testBit 2 = true) ∧
      (("MALFORMED_TABLE" ∈ PageFaultErrorCode.debugFlags ⟨e⟩) ↔
        e.testBit 3 = true) ∧
      (("INSTRUCTION_FETCH" ∈ PageFaultErrorCode.debugFlags ⟨e⟩) ↔
        e.testBit 4 = true)) ∧
    PageFaultErrorCode.debugFlags ⟨1⟩ = ["PROTECTION_VIOLATION"] ∧
    PageFaultErrorCode.debugFlags ⟨3⟩ = ["PROTECTION_VIOLATION", "CAUSED_BY_WRITE"] ∧
    (∀ frame cr2, page_fault_handler frame 1 cr2 =
      HandlerResult.halt (Diagnostic.page_fault cr2 ⟨1⟩ frame)) ∧
    (∀ frame cr2, page_fault_handler frame 3 cr2 =
      HandlerResult.halt (Diagnostic.page_fault cr2 ⟨3⟩ frame)) := by
  refine ⟨by decide, by decide, by decide, ?_, ?_⟩
  · intro frame cr2
    have h := from_bits_some_of_lt 1 (by omega)
    simp [page_fault_handler, h]
  · intro frame cr2
    have h := from_bits_some_of_lt 3 (by omega)
    simp [page_fault_handler, h]

/-- Witness for C5 at error code 3. -/
theorem claim_C5_witness : PageFaultErrorCode.from_bits 3 = some ⟨3⟩ :=
  (claim_C5.1 3 (by decide)).1

/-- Claim C6: for every delivered frame the breakpoint handler emits a
diagnostic referencing the frame's instruction pointer and returns, while the
handlers for vectors 0, 6, 8 and 14 emit a diagnostic and never return
(entering the terminal loop); for vector 14 this holds for every error code
the decoder accepts. -/
theorem claim_C6 (frame : ExceptionStackFrame) (e cr2 : Nat) (he : e < 32) :
    breakpoint_handler frame =
      HandlerResult.resume
        (Diagnostic.breakpoint_at frame.instruction_pointer frame) ∧
    (breakpoint_handler frame).returns = true ∧
    divide_by_zero_handler frame =
      HandlerResult.halt (Diagnostic.divide_by_zero frame) ∧
    (divide_by_zero_handler frame).returns = false ∧
    invalid_opcode_handler frame =
      HandlerResult.halt
        (Diagnostic.invalid_opcode_at frame.instruction_pointer frame) ∧
    (invalid_opcode_handler frame).returns = false ∧
    double_fault_handler frame e =
      HandlerResult.halt (Diagnostic.double_fault frame) ∧
    (double_fault_handler frame e).returns = false ∧
    page_fault_handler frame e cr2 =
      HandlerResult.halt (Diagnostic.page_fault cr2 ⟨e⟩ frame) ∧
    (page_fault_handler frame e cr2).returns = false := by
  have hf := from_bits_some_of_lt e he
  refine ⟨rfl, rfl, rfl, rfl, rfl, rfl, rfl, rfl, ?_, ?_⟩ <;>
    simp [page_fault_handler, hf, HandlerResult.returns]

/-- Witness for C6 at a concrete frame and error code 3. -/
theorem claim_C6_witness :
    breakpoint_handler ⟨7, 8, 9, 10, 11⟩ =
      HandlerResult.resume (Diagnostic.breakpoint_at 7 ⟨7, 8, 9, 10, 11⟩) :=
  (claim_C6 ⟨7, 8, 9, 10, 11⟩ 3 42 (by decide)).1

/-- Claim C7: a second successful init call after a successful first call
leaves the TSS, GDT and IDT singletons unchanged: each construction closure
has run exactly once after either call, and the second call neither
duplicates nor mutates the singleton cells. -/
theorem claim_C7 (stack stack2 : Stack) (s1 s2 : KernelState)
    (h1 : init (some stack) KernelState.boot = InitResult.ok s1)
    (h2 : init (some stack2) s1 = InitResult.ok s2) :
    s1.tss_builds = 1 ∧ s1.gdt_builds = 1 ∧ s1.idt_builds = 1 ∧
    s2.tss_builds = 1 ∧ s2.gdt_builds = 1 ∧ s2.idt_builds = 1 ∧
    s2.tss_cell = s1.tss_cell ∧ s2.gdt_cell = s1.gdt_cell ∧
    s2.loaded_idt = s1.loaded_idt ∧ s2.loaded_idt = some builtIDT := by
  rw [init_boot_eq] at h1
  injection h1 with h1
  subst h1
  rw [init_second_eq] at h2
  injection h2 with h2
  subst h2
  exact ⟨rfl, rfl, rfl, rfl, rfl, rfl, rfl, rfl, rfl, rfl⟩

/-- Witness for C7 on a concrete double run. -/
theorem claim_C7_witness : (firstState ⟨4096⟩).tss_builds = 1 :=
  (claim_C7 ⟨4096⟩ ⟨8192⟩ (firstState ⟨4096⟩) (secondState ⟨4096⟩) rfl rfl).1

/-- Claim C8: a page-fault error code with any set bit outside the five
defined flag bits makes the handler's from_bits-then-unwrap step panic
instead of emitting the diagnostic. -/
theorem claim_C8 (frame : ExceptionStackFrame) (cr2 e : Nat) (he : e < U64)
    (hbit : ∃ i, 5 ≤ i ∧ e.testBit i = true) :
    page_fault_handler frame e cr2 =
      HandlerResult.panicked "called Option::unwrap on a None value" ∧
    PageFaultErrorCode.from_bits e = none := by
  have h := from_bits_none_of_high_bit e he hbit
  exact ⟨by simp [page_fault_handler, h], h⟩

/-- Witness for C8 at error code 32 (bit 5 set). -/
theorem claim_C8_witness :
    page_fault_handler ⟨1, 2, 3, 4, 5⟩ 32 0 =
      HandlerResult.panicked "called Option::unwrap on a None value" :=
  (claim_C8 ⟨1, 2, 3, 4, 5⟩ 0 32 (by decide) ⟨5, by decide, by decide⟩).1

/-- Claim C9: on a second init call after a completed first call the GDT
closure does not run again, so the local selectors keep
SegmentSelector.empty and set_cs and load_tr are invoked with the null
selector instead of the selectors the original construction returned. -/
theorem claim_C9 (stack stack2 : Stack) (s1 s2 : KernelState)
    (h1 : init (some stack) KernelState.boot = InitResult.ok s1)
    (h2 : init (some stack2) s1 = InitResult.ok s2) :
    s1.cs = some ⟨1, 0⟩ ∧ s1.tr = some ⟨2, 0⟩ ∧
    (⟨1, 0⟩ : SegmentSelector) ≠ SegmentSelector.empty ∧
    (⟨2, 0⟩ : SegmentSelector) ≠ SegmentSelector.empty ∧
    s2.cs = some SegmentSelector.empty ∧ s2.tr = some SegmentSelector.empty ∧
    s2.gdt_builds = s1.gdt_builds := by
  rw [init_boot_eq] at h1
  injection h1 with h1
  subst h1
  rw [init_second_eq] at h2
  injection h2 with h2
  subst h2
  exact ⟨rfl, rfl, by decide, by decide, rfl, rfl, rfl⟩

/-- Witness for C9 on a concrete double run. -/
theorem claim_C9_witness : (secondState ⟨4096⟩).cs = some SegmentSelector.empty :=
  (claim_C9 ⟨4096⟩ ⟨8192⟩ (firstState ⟨4096⟩) (secondState ⟨4096⟩) rfl rfl).2.2.2.2.1

/-- Claim C10: the double-fault handler's observable behaviour is independent
of the delivered error-code word: for the same frame, any two error codes
produce identical results. -/
theorem claim_C10 (frame : ExceptionStackFrame) (e1 e2 : Nat) :
    double_fault_handler frame e1 = double_fault_handler frame e2 := rfl

end BlogOS
